import Mathlib

/-!
Verification development for the YouTube-Video-To-Quiz-Generator app
(`app.py`).  Text values are modelled as `List Char`; the stateful
Streamlit session is modelled as explicit state passing; calls to the
external network services (OpenAI, YouTube) are modelled as `Except`
inputs to the functions that consume their results.
-/

set_option autoImplicit false

namespace YTQuiz

abbrev Text := List Char

/-- The whitespace characters removed by Python `str.strip()` (ASCII range). -/
def pyIsSpace (c : Char) : Bool :=
  c == ' ' || c == '\t' || c == '\n' || c == '\r' || c == '\x0b' || c == '\x0c'

/-- Python `str.strip()`: drop whitespace from both ends. -/
def pyStrip (s : Text) : Text :=
  ((s.dropWhile pyIsSpace).reverse.dropWhile pyIsSpace).reverse

/-- The backtick character, written via its code point. -/
def tick : Char := Char.ofNat 96

/-- The 7-character fence opener checked by `extracted_response.startswith("```json")`
(app.py line 67). -/
def fenceOpen : Text := [tick, tick, tick, 'j', 's', 'o', 'n']

/-- The 3-character fence closer checked by `extracted_response.endswith("```")`
(app.py line 69). -/
def ticks3 : Text := [tick, tick, tick]

/-- Python `u.endswith("```")`: the last three characters are backticks. -/
def endsTicks (u : Text) : Prop := u.reverse.take 3 = ticks3

instance (u : Text) : Decidable (endsTicks u) := by
  unfold endsTicks; infer_instance

/-- The response clean-up of app.py lines 64-70: strip whitespace, then remove
the first 7 characters when the text starts with the literal fence opener, then
remove the last 3 characters when the (possibly prefix-stripped) text ends with
three backticks.  Python `s[7:]` is `List.drop 7` and `s[:-3]` is
`List.take (length - 3)`. -/
def sanitize (s : Text) : Text :=
  let t := pyStrip s
  let t1 := if t.take 7 = fenceOpen then t.drop 7 else t
  if endsTicks t1 then t1.take (t1.length - 3) else t1

/-- JSON values as produced by `json.loads`.  Numbers are modelled as integers
(the quiz schema uses no numbers at all). -/
inductive Json where
  | str : Text → Json
  | num : Int → Json
  | bool : Bool → Json
  | null : Json
  | arr : List Json → Json
  | obj : List (Text × Json) → Json

/-- Lookup in a parsed JSON object.  `json.loads` produces Python dicts, whose
keys are unique, so first-match lookup agrees with dict access. -/
def jLookup (k : Text) : List (Text × Json) → Option Json
  | [] => none
  | (k2, v) :: rest => if k2 = k then some v else jLookup k rest

/-- JSON insignificant whitespace. -/
def jsonWs (c : Char) : Bool :=
  c == ' ' || c == '\t' || c == '\n' || c == '\r'

def skipWs : Text → Text
  | [] => []
  | c :: cs => if jsonWs c then skipWs cs else c :: cs

/-- Parse the body of a JSON string literal (the opening quote already
consumed), handling the common escapes.  Fuelled recursion; the fuel is an
upper bound on the characters consumed. -/
def parseStringBody : Nat → Text → Option (Text × Text)
  | 0, _ => none
  | _ + 1, [] => none
  | fuel + 1, c :: cs =>
    if c = '\"' then some ([], cs)
    else if c = '\\' then
      match cs with
      | [] => none
      | e :: cs2 =>
        let dec : Option Char :=
          if e = '\"' then some '\"'
          else if e = '\\' then some '\\'
          else if e = '/' then some '/'
          else if e = 'n' then some '\n'
          else if e = 't' then some '\t'
          else if e = 'r' then some '\r'
          else none
        match dec with
        | none => none
        | some d => (parseStringBody fuel cs2).map (fun p => (d :: p.1, p.2))
    else (parseStringBody fuel cs).map (fun p => (c :: p.1, p.2))

def parseDigitsAux : Text → Nat → Nat × Text
  | [], acc => (acc, [])
  | c :: cs, acc =>
    if c.isDigit then parseDigitsAux cs (acc * 10 + (c.toNat - 48)) else (acc, c :: cs)

/-- Parse a nonempty digit run. -/
def parseNat1 : Text → Option (Nat × Text)
  | [] => none
  | c :: cs => if c.isDigit then some (parseDigitsAux cs (c.toNat - 48)) else none

mutual

/-- Parse one JSON value.  Fuelled recursion over the nesting structure. -/
def parseVal : Nat → Text → Option (Json × Text)
  | 0, _ => none
  | fuel + 1, cs0 =>
    match skipWs cs0 with
    | [] => none
    | c :: rest =>
      if c = '\"' then
        (parseStringBody (rest.length + 1) rest).map (fun p => (Json.str p.1, p.2))
      else if c = '{' then
        match skipWs rest with
        | '}' :: r2 => some (Json.obj [], r2)
        | r2 => (parseMembers fuel r2).map (fun p => (Json.obj p.1, p.2))
      else if c = '[' then
        match skipWs rest with
        | ']' :: r2 => some (Json.arr [], r2)
        | r2 => (parseItems fuel r2).map (fun p => (Json.arr p.1, p.2))
      else if (c :: rest).take 4 = ('t' :: 'r' :: 'u' :: 'e' :: []) then
        some (Json.bool true, (c :: rest).drop 4)
      else if (c :: rest).take 5 = ('f' :: 'a' :: 'l' :: 's' :: 'e' :: []) then
        some (Json.bool false, (c :: rest).drop 5)
      else if (c :: rest).take 4 = ('n' :: 'u' :: 'l' :: 'l' :: []) then
        some (Json.null, (c :: rest).drop 4)
      else if c = '-' then
        (parseNat1 rest).map (fun p => (Json.num (-(p.1 : Int)), p.2))
      else if c.isDigit then
        (parseNat1 (c :: rest)).map (fun p => (Json.num (p.1 : Int), p.2))
      else none

/-- Parse the members of a JSON object after the opening brace (nonempty case). -/
def parseMembers : Nat → Text → Option (List (Text × Json) × Text)
  | 0, _ => none
  | fuel + 1, cs =>
    match skipWs cs with
    | '\"' :: rest =>
      match parseStringBody (rest.length + 1) rest with
      | none => none
      | some (key, r1) =>
        match skipWs r1 with
        | ':' :: r2 =>
          match parseVal fuel r2 with
          | none => none
          | some (v, r3) =>
            match skipWs r3 with
            | ',' :: r4 => (parseMembers fuel r4).map (fun p => ((key, v) :: p.1, p.2))
            | '}' :: r4 => some ([(key, v)] , r4)
            | _ => none
        | _ => none
    | _ => none

/-- Parse the items of a JSON array after the opening bracket (nonempty case). -/
def parseItems : Nat → Text → Option (List Json × Text)
  | 0, _ => none
  | fuel + 1, cs =>
    match parseVal fuel cs with
    | none => none
    | some (v, r1) =>
      match skipWs r1 with
      | ',' :: r2 => (parseItems fuel r2).map (fun p => (v :: p.1, p.2))
      | ']' :: r2 => some ([v], r2)
      | _ => none

end

/-- Model of Python `json.loads`: parse one value, require only whitespace
after it.  The fuel bound is generous; insufficient fuel only yields a parse
error, never a wrong success. -/
def jsonLoads (s : Text) : Except Text Json :=
  match parseVal (2 * s.length + 2) s with
  | some (v, rest) =>
    if skipWs rest = [] then Except.ok v else Except.error ("Extra data".toList)
  | none => Except.error ("Expecting value".toList)

/-- The observable outcome of one `fetch_questions` call: the returned value,
the user-facing messages shown via `st.error`, and the lines written to the
internal log via `print`. -/
structure FetchOutcome where
  result : Json
  uiErrors : List Text
  logLines : List Text

def decodeFailMsg : Text :=
  "Failed to decode the response from OpenAI. Please try again.".toList

def genericFailMsg : Text :=
  "An error occurred while fetching questions. Please try again.".toList

def mcqsKey : Text := "mcqs".toList

/-- `fetch_questions` (app.py lines 22-82).  The OpenAI chat-completion call is
an external network operation; its outcome (the raw response text, or an
exception) is the `api` input.  The body strips and fence-cleans the text,
parses it with `json.loads`, and returns `parsed.get("mcqs", [])`; a
`json.JSONDecodeError` is reported with a generic message plus two log lines
and yields `[]`; any other exception (including the `.get` attribute error on
a non-object top-level value) hits the generic handler and also yields `[]`. -/
def fetch_questions (api : Except Text Text) : FetchOutcome :=
  match api with
  | Except.error e =>
    ⟨Json.arr [], [genericFailMsg], [("Error: ".toList) ++ e]⟩
  | Except.ok raw =>
    let t := sanitize raw
    match jsonLoads t with
    | Except.error e =>
      ⟨Json.arr [], [decodeFailMsg],
        [("Invalid JSON response: ".toList) ++ t, ("JSONDecodeError: ".toList) ++ e]⟩
    | Except.ok (Json.obj fields) =>
      ⟨(jLookup mcqsKey fields).getD (Json.arr []), [], []⟩
    | Except.ok _ =>
      ⟨Json.arr [], [genericFailMsg], ["Error: AttributeError".toList]⟩

/-- The invariant claimed for a parsed question record: it is an object whose
`"correct"` value is a string that occurs among the keys of its `"options"`
object. -/
def optionsKey : Text := "options".toList

def correctKey : Text := "correct".toList

def recordValid (r : Json) : Bool :=
  match r with
  | Json.obj fields =>
    match jLookup correctKey fields, jLookup optionsKey fields with
    | some (Json.str c), some (Json.obj opts) => (jLookup c opts).isSome
    | _, _ => false
  | _ => false

/-- The observable outcome of one `get_youtube_transcript` call. -/
structure TranscriptOutcome where
  transcript : Text
  uiErrors : List Text
  logLines : List Text

def transcriptFailMsg : Text := "Failed to fetch YouTube transcript.".toList

/-- `get_youtube_transcript` (app.py lines 85-97).  The YoutubeLoader network
call is external; its outcome (the list of loaded documents' page contents, or
an exception) is the `loadResult` input.  On success the first document's text
is returned, or `""` when no documents were loaded; any exception is reported
and logged and yields `""`. -/
def get_youtube_transcript (loadResult : Except Text (List Text)) : TranscriptOutcome :=
  match loadResult with
  | Except.error e => ⟨[], [transcriptFailMsg], [("Transcript fetch error: ".toList) ++ e]⟩
  | Except.ok [] => ⟨[], [], []⟩
  | Except.ok (d :: _) => ⟨d, [], []⟩

/-- A question record as stored in the session and consumed by the rendering
and scoring loops, i.e. a dict with the three keys the code accesses:
`"mcq"`, `"options"` (an ordered label-to-text mapping) and `"correct"`. -/
structure Question where
  mcq : Text
  options : List (Text × Text)
  correct : Text
deriving DecidableEq

/-- The Streamlit session state used by `main` (app.py lines 110-115):
`questions`, `selected_answers` and `submitted`. -/
structure SessionState where
  questions : List Question
  selected : List (Option Text)
  submitted : Bool
deriving DecidableEq

/-- Session state at session start (app.py lines 110-115). -/
def initState : SessionState := ⟨[], [], false⟩

/-- The inputs of one run of `main`'s body: whether the Generate button was
clicked, the URL field, the results of the two external calls, the user's
radio interactions for this run (`none` = the user did not touch question i),
and whether the Submit button was clicked. -/
structure RunInput where
  generateClicked : Bool
  url : Text
  transcript : Text
  fetched : List Question
  choices : Nat → Option Text
  submitClicked : Bool

/-- Python truthiness of a `selected_answers` slot: `None` and `""` are falsy. -/
def pyTruthy : Option Text → Bool
  | none => false
  | some s => !s.isEmpty

/-- Python dict lookup on the ordered options mapping. -/
def optLookup (k : Text) : List (Text × Text) → Option Text
  | [] => none
  | (k2, v) :: rest => if k2 = k then some v else optLookup k rest

/-- Python `list.index`: index of the first occurrence, `none` = ValueError. -/
def idxOf (x : Text) : List Text → Option Nat
  | [] => none
  | y :: ys => if y = x then some 0 else (idxOf x ys).map (· + 1)

def keyError : Text := "KeyError".toList

def valueError : Text := "ValueError".toList

def indexError : Text := "IndexError".toList

/-- The `index=` argument of the radio widget (app.py line 162):
`options.index(selected_answers[i]) if selected_answers[i] else 0`.
`list.index` raises ValueError when the value is absent. -/
def radioIndex (opts : List Text) (cur : Option Text) : Except Text Nat :=
  if pyTruthy cur then
    match cur with
    | some s =>
      match idxOf s opts with
      | some k => Except.ok k
      | none => Except.error valueError
    | none => Except.ok 0
  else Except.ok 0

/-- The value returned by `st.radio` (app.py lines 159-164): the option the
user picked this run, or the option at the default index when the user did not
interact; `none` when the options list is empty. -/
def radioResult (opts : List Text) (cur : Option Text) (choice : Option Text) :
    Except Text (Option Text) :=
  match radioIndex opts cur with
  | Except.error e => Except.error e
  | Except.ok k =>
    match choice with
    | some c => Except.ok (some c)
    | none => Except.ok (opts.get? k)

/-- The question-rendering loop (app.py lines 157-165): for each question, the
radio widget's value is written back into `selected_answers[i]`.  Mutation is
in place, so on an exception the slots already written keep their new values;
the second component is the pending exception, if any. -/
def displayLoop : List Question → List (Option Text) → (Nat → Option Text) →
    List (Option Text) × Option Text
  | [], sel, _ => (sel, none)
  | _ :: _, [], _ => ([], some indexError)
  | q :: qs, s :: sel, ch =>
    match radioResult (q.options.map Prod.snd) s (ch 0) with
    | Except.error e => (s :: sel, some e)
    | Except.ok r =>
      let rest := displayLoop qs sel (fun n => ch (n + 1))
      (r :: rest.1, rest.2)

/-- The scoring loop (app.py lines 173-182): count the questions whose stored
selected answer text equals `question["options"][question["correct"]]`.  The
unguarded dict lookup raises KeyError when the correct label is not an options
key; running past `selected_answers` raises IndexError. -/
def scoreRun : List Question → List (Option Text) → Except Text Nat
  | [], _ => Except.ok 0
  | _ :: _, [] => Except.error indexError
  | q :: qs, s :: sel =>
    match optLookup q.correct q.options with
    | none => Except.error keyError
    | some c =>
      match scoreRun qs sel with
      | Except.error e => Except.error e
      | Except.ok m => Except.ok (m + (if s = some c then 1 else 0))

/-- The score line rendered at app.py line 184: `Your Score: {marks}/{total}`. -/
def scoreLine (qs : List Question) (sel : List (Option Text)) : Except Text Text :=
  match scoreRun qs sel with
  | Except.error e => Except.error e
  | Except.ok m =>
    Except.ok (("Your Score: ".toList) ++ (Nat.repr m).toList ++ ("/".toList) ++
      (Nat.repr qs.length).toList)

/-- The Generate-Quiz block (app.py lines 128-152).  Returns the session state
after the block together with an early-return flag: an empty URL, an empty
transcript, or an empty question list shows an error and returns from `main`
without touching the session; on success the session is fully replaced. -/
def generateBlock (st : SessionState) (clicked : Bool) (url tr : Text)
    (qs : List Question) : SessionState × Bool :=
  if clicked then
    if url.isEmpty then (st, true)
    else if tr.isEmpty then (st, true)
    else if qs.isEmpty then (st, true)
    else ({ questions := qs, selected := List.replicate qs.length none,
            submitted := false }, false)
  else (st, false)

/-- The results section (app.py lines 172-184), run when `submitted` is true:
scoring reads the current session and raises on a bad lookup; the session
itself is not modified. -/
def resultsBlock (st : SessionState) : SessionState × Option Text :=
  match scoreRun st.questions st.selected with
  | Except.error e => (st, some e)
  | Except.ok _ => (st, none)

/-- The rendering and submit sections (app.py lines 155-169) followed by the
results section, for a session with questions present: the radio values are
written back into `selected_answers`, a Submit click sets `submitted`, and the
results section runs when `submitted` is set.  Session mutations made before
an exception persist. -/
def displayThen (st : SessionState) (inp : RunInput) : SessionState × Option Text :=
  let d := displayLoop st.questions st.selected inp.choices
  let st1 : SessionState := { st with selected := d.1 }
  match d.2 with
  | some e => (st1, some e)
  | none =>
    let st2 : SessionState :=
      if inp.submitClicked then { st1 with submitted := true } else st1
    if st2.submitted then resultsBlock st2 else (st2, none)

/-- The rendering, submit, and results sections of `main` (app.py lines
155-184), run when the generate block did not return early.  With no
questions present, only the results section can run (over the empty question
list). -/
def afterGen (st : SessionState) (inp : RunInput) : SessionState × Option Text :=
  if st.questions.isEmpty then
    if st.submitted then resultsBlock st else (st, none)
  else displayThen st inp

/-- One full run of `main`'s body (app.py lines 100-184) over the session
state, from the inputs of that run. -/
def runMain (st : SessionState) (inp : RunInput) : SessionState × Option Text :=
  let g := generateBlock st inp.generateClicked inp.url inp.transcript inp.fetched
  if g.2 then (g.1, none) else afterGen g.1 inp

/-- Session states reachable from session start by repeated runs of `main`
(the state persists across runs, also when a run ends in an exception). -/
inductive Reachable : SessionState → Prop where
  | init : Reachable initState
  | step (st : SessionState) (inp : RunInput) : Reachable st → Reachable (runMain st inp).1

/-- The first option text of a question, i.e. the default the radio widget
shows and returns for an untouched question. -/
def firstOption (q : Question) : Option Text := (q.options.map Prod.snd).head?

/-! Concrete fixtures used by the theorems below. -/

/-- A model response whose single parsed record has correct label `"b"` while
its options object only has the key `"a"`. -/
def rawBad : Text :=
  "\x7b\"mcqs\": [\x7b\"mcq\": \"Q1\", \"options\": \x7b\"a\": \"x\"\x7d, \"correct\": \"b\"\x7d]\x7d".toList

/-- The parsed form of the single record inside `rawBad`. -/
def badRec : Json :=
  Json.obj [("mcq".toList, Json.str ("Q1".toList)),
            ("options".toList, Json.obj [("a".toList, Json.str ("x".toList))]),
            ("correct".toList, Json.str ("b".toList))]

/-- A well-formed two-option question whose correct label is an options key. -/
def qYes : Question :=
  ⟨"Q?".toList, [("a".toList, "Yes".toList), ("b".toList, "No".toList)], "a".toList⟩

/-- A question whose correct label `"e"` is not a key of its options mapping. -/
def badQ : Question := ⟨"Q?".toList, [("a".toList, "x".toList)], "e".toList⟩

/-- A prior session holding a submitted one-question quiz. -/
def st6 : SessionState := ⟨[qYes], [some ("Yes".toList)], true⟩

/-- A run that clicks Generate with a URL but an empty (failed) transcript. -/
def inp6 : RunInput := ⟨true, "u".toList, [], [], fun _ => none, false⟩

/-- A run that generates a one-question quiz successfully. -/
def inpG7 : RunInput := ⟨true, "u".toList, "t".toList, [qYes], fun _ => none, false⟩

/-- A follow-up run that only clicks Submit. -/
def inpS7 : RunInput := ⟨false, [], [], [], fun _ => none, true⟩

/-- A run that successfully generates a quiz consisting of the invalid
question `badQ`. -/
def inpG10 : RunInput := ⟨true, "u".toList, "t".toList, [badQ], fun _ => none, false⟩

/-- A follow-up run that only clicks Submit. -/
def inpS10 : RunInput := ⟨false, [], [], [], fun _ => none, true⟩

/-! ### C1: the generator does not validate the correct-label invariant -/

/-- C1 (counterexample): on the concrete response `rawBad`, `fetch_questions`
returns a sequence containing a record whose correct label is not a key of its
options mapping — the invariant-violating record is passed through, not
rejected. -/
theorem c1_invalid_record_passed_through :
    (fetch_questions (Except.ok rawBad)).result = Json.arr [badRec] ∧
      recordValid badRec = false :=
  ⟨rfl, rfl⟩

/-- C1 (amended): `fetch_questions` performs no per-record validation: whenever
the sanitized response parses to an object whose `"mcqs"` key holds an array,
the returned sequence is exactly that array, so records violating the
correct-label invariant are passed through rather than rejected. -/
theorem fetch_questions_no_validation (raw : Text) (fields : List (Text × Json))
    (l : List Json) (hparse : jsonLoads (sanitize raw) = Except.ok (Json.obj fields))
    (hmcqs : jLookup mcqsKey fields = some (Json.arr l)) :
    (fetch_questions (Except.ok raw)).result = Json.arr l := by
  simp [fetch_questions, hparse, hmcqs]

/-- Witness for `fetch_questions_no_validation` at the concrete response
`rawBad`. -/
theorem fetch_questions_no_validation_witness :
    (fetch_questions (Except.ok rawBad)).result = Json.arr [badRec] :=
  fetch_questions_no_validation rawBad [(mcqsKey, Json.arr [badRec])] [badRec] rfl rfl

/-! ### C3: malformed JSON yields an empty result, a generic message and logs -/

/-- C3: for every model response whose sanitized text fails JSON parsing,
`fetch_questions` returns the empty sequence, shows exactly the generic
decode-failure message, and logs the offending text and the parse error; the
function is total, so no exception reaches the caller. -/
theorem fetch_questions_decode_failure (raw e : Text)
    (h : jsonLoads (sanitize raw) = Except.error e) :
    fetch_questions (Except.ok raw) =
      ⟨Json.arr [], [decodeFailMsg],
        [("Invalid JSON response: ".toList) ++ sanitize raw,
         ("JSONDecodeError: ".toList) ++ e]⟩ := by
  simp [fetch_questions, h]

/-- Witness for `fetch_questions_decode_failure` on the non-JSON response
`"oops"`. -/
theorem fetch_questions_decode_failure_witness :
    jsonLoads (sanitize ("oops".toList)) = Except.error ("Expecting value".toList) ∧
      fetch_questions (Except.ok ("oops".toList)) =
        ⟨Json.arr [], [decodeFailMsg],
          [("Invalid JSON response: ".toList) ++ sanitize ("oops".toList),
           ("JSONDecodeError: ".toList) ++ ("Expecting value".toList)]⟩ :=
  ⟨rfl, fetch_questions_decode_failure ("oops".toList) ("Expecting value".toList) rfl⟩

/-! ### C5: successful generation fully replaces the session -/

/-- C5: from every prior session state, a Generate click with a non-empty URL,
non-empty transcript and non-empty generated question list replaces the
session wholesale: the new questions are stored, the answers become an
all-unset list of matching length, and the submitted flag is cleared; nothing
of the prior state is kept. -/
theorem generation_success_replaces_session (st : SessionState) (url tr : Text)
    (qs : List Question) (hu : url ≠ []) (ht : tr ≠ []) (hq : qs ≠ []) :
    generateBlock st true url tr qs =
      ({ questions := qs, selected := List.replicate qs.length none,
         submitted := false }, false) := by
  simp [generateBlock, List.isEmpty_iff, hu, ht, hq]

/-- Witness for `generation_success_replaces_session` from a submitted prior
session. -/
theorem generation_success_replaces_session_witness :
    generateBlock st6 true ("u".toList) ("t".toList) [badQ] =
      ({ questions := [badQ], selected := [none], submitted := false }, false) :=
  (generation_success_replaces_session st6 ("u".toList) ("t".toList) [badQ]
    (by decide) (by decide) (by decide)).trans (by decide)

/-! ### C6: failed generation does NOT reset the session -/

/-- C6 (counterexample): from the submitted prior session `st6`, a Generate
click whose transcript fetch fails leaves the session exactly as it was —
`questions` does not become empty, refuting the claimed reset-to-Empty. -/
theorem c6_failed_generation_keeps_state :
    runMain st6 inp6 = (st6, none) ∧ st6.questions ≠ [] :=
  ⟨rfl, by decide⟩

/-- C6 (amended): a generation attempt that fails (empty transcript, or an
empty generated question list) returns from `main` early and leaves the
session state completely unchanged — prior questions, answers and submission
status are all retained, and nothing else of the run executes. -/
theorem failed_generation_leaves_state (st : SessionState) (url tr : Text)
    (qs : List Question) (ch : Nat → Option Text) (sub : Bool) (hu : url ≠ [])
    (hfail : tr = [] ∨ qs = []) :
    runMain st ⟨true, url, tr, qs, ch, sub⟩ = (st, none) := by
  rcases hfail with h | h
  · simp [runMain, generateBlock, List.isEmpty_iff, hu, h]
  · by_cases htr : tr = []
    · simp [runMain, generateBlock, List.isEmpty_iff, hu, htr]
    · simp [runMain, generateBlock, List.isEmpty_iff, hu, htr, h]

/-- Witness for `failed_generation_leaves_state` at the concrete session
`st6` and input `inp6`. -/
theorem failed_generation_leaves_state_witness :
    runMain st6 inp6 = (st6, none) :=
  failed_generation_leaves_state st6 ("u".toList) [] [] (fun _ => none) false
    (by decide) (Or.inl rfl)

/-! ### C8: transcript fetch failure carries no partial data -/

/-- C8: whenever the transcript load fails (the loader raised) or yields no
documents, `get_youtube_transcript` returns the empty transcript — the failure
encoding — with no partial data; and it never returns a non-empty transcript
together with an error signal. -/
theorem transcript_failure_contract (lr : Except Text (List Text)) :
    (∀ e, lr = Except.error e →
        get_youtube_transcript lr =
          ⟨[], [transcriptFailMsg], [("Transcript fetch error: ".toList) ++ e]⟩) ∧
    (lr = Except.ok [] → get_youtube_transcript lr = ⟨[], [], []⟩) ∧
    ((get_youtube_transcript lr).transcript ≠ [] →
        (get_youtube_transcript lr).uiErrors = []) := by
  refine ⟨fun e he => ?_, fun he => ?_, fun hne => ?_⟩
  · subst he; rfl
  · subst he; rfl
  · rcases lr with e | docs
    · exact absurd rfl hne
    · rcases docs with _ | ⟨d, rest⟩ <;> rfl

/-- Witness for `transcript_failure_contract`: a raised load, an empty load,
and a successful load. -/
theorem transcript_failure_contract_witness :
    get_youtube_transcript (Except.error ("boom".toList)) =
      ⟨[], [transcriptFailMsg], [("Transcript fetch error: ".toList) ++ ("boom".toList)]⟩ ∧
    get_youtube_transcript (Except.ok []) = ⟨[], [], []⟩ ∧
    (get_youtube_transcript (Except.ok ["words".toList])).uiErrors = [] :=
  ⟨(transcript_failure_contract _).1 ("boom".toList) rfl,
   (transcript_failure_contract _).2.1 rfl,
   (transcript_failure_contract (Except.ok ["words".toList])).2.2 (by decide)⟩

/-! ### C4 and C10: the scoring loop -/

lemma scoreRun_eq_countP (qs : List Question) (sel : List (Option Text))
    (hlen : sel.length = qs.length)
    (hval : ∀ q ∈ qs, (optLookup q.correct q.options).isSome) :
    scoreRun qs sel = Except.ok ((qs.zip sel).countP
      (fun p => decide (p.2 = optLookup p.1.correct p.1.options))) := by
  induction qs generalizing sel with
  | nil => simp [scoreRun]
  | cons q qs ih =>
    cases sel with
    | nil => simp at hlen
    | cons s sel =>
      have hq : (optLookup q.correct q.options).isSome := hval q (by simp)
      obtain ⟨c, hc⟩ := Option.isSome_iff_exists.mp hq
      have hrest := ih sel (by simpa using hlen) (fun q2 hm => hval q2 (by simp [hm]))
      simp [scoreRun, hc, hrest, List.countP_cons]

/-- C4: when the stored answers match the questions in length and every stored
question's correct label is an options key, the scoring loop succeeds and
computes exactly the number of indices whose stored answer text equals the
option text found under the question's correct label, and the rendered score
line reads `Your Score: {matches}/{total}`. -/
theorem score_is_match_count (qs : List Question) (sel : List (Option Text))
    (hlen : sel.length = qs.length)
    (hval : ∀ q ∈ qs, (optLookup q.correct q.options).isSome) :
    scoreRun qs sel = Except.ok ((qs.zip sel).countP
      (fun p => decide (p.2 = optLookup p.1.correct p.1.options))) ∧
    scoreLine qs sel = Except.ok (("Your Score: ".toList) ++
      (Nat.repr ((qs.zip sel).countP
        (fun p => decide (p.2 = optLookup p.1.correct p.1.options)))).toList ++
      ("/".toList) ++ (Nat.repr qs.length).toList) := by
  have h := scoreRun_eq_countP qs sel hlen hval
  exact ⟨h, by simp [scoreLine, h]⟩

/-- Witness for `score_is_match_count`: five questions with three matching
answers score `3/5`. -/
theorem score_is_match_count_witness :
    scoreLine [qYes, qYes, qYes, qYes, qYes]
        [some ("Yes".toList), some ("Yes".toList), some ("Yes".toList),
         some ("No".toList), none] =
      Except.ok ("Your Score: 3/5".toList) :=
  ((score_is_match_count [qYes, qYes, qYes, qYes, qYes]
      [some ("Yes".toList), some ("Yes".toList), some ("Yes".toList),
       some ("No".toList), none]
      (by decide) (by decide)).2).trans rfl

/-- C10: the scoring lookup `question["options"][question["correct"]]` is
unguarded.  Under the precondition that every stored question's correct label
is an options key the loop is total (it returns a count for every same-length
answer assignment); and a stored question violating that precondition drives
the loop into its KeyError branch — reachable through the real pipeline, since
generation stores such a record without any earlier validation and submission
then raises. -/
theorem score_lookup_unguarded :
    (∀ (qs : List Question) (sel : List (Option Text)), sel.length = qs.length →
        (∀ q ∈ qs, (optLookup q.correct q.options).isSome) →
        ∃ m, scoreRun qs sel = Except.ok m) ∧
    (optLookup badQ.correct badQ.options = none ∧
      (runMain initState inpG10).1.questions = [badQ] ∧
      (runMain (runMain initState inpG10).1 inpS10).2 = some keyError) := by
  refine ⟨fun qs sel h1 h2 => ⟨_, scoreRun_eq_countP qs sel h1 h2⟩, rfl, rfl, rfl⟩

/-- Witness for the hypothesis-bearing part of `score_lookup_unguarded` at a
concrete valid quiz. -/
theorem score_lookup_unguarded_witness :
    ∃ m, scoreRun [qYes] [some ("No".toList)] = Except.ok m :=
  score_lookup_unguarded.1 [qYes] [some ("No".toList)] (by decide) (by decide)

/-! ### C2: the fence strip is an exact fixed-offset strip -/

lemma take3_of_append_ge (a r : Text) (h : 3 ≤ r.length) :
    (a ++ r).reverse.take 3 = r.reverse.take 3 := by
  rw [List.reverse_append]
  exact List.take_append_of_le_length (by simpa using h)

lemma endsTicks_short (r : Text) (h : r.length < 3) : ¬ endsTicks r := by
  intro hc
  have hlen : (r.reverse.take 3).length = min 3 r.length := by simp
  rw [hc] at hlen
  simp [ticks3] at hlen
  omega

lemma not_endsTicks_fence_append (r : Text) (h : r.length < 3) :
    ¬ endsTicks (fenceOpen ++ r) := by
  rcases r with _ | ⟨a, _ | ⟨b, _ | ⟨c, r⟩⟩⟩
  · decide
  · intro hc
    rw [endsTicks, show (fenceOpen ++ [a]).reverse =
        a :: ('n' :: 'o' :: 's' :: 'j' :: tick :: tick :: tick :: []) from by
      simp [fenceOpen]] at hc
    simp [ticks3] at hc
    exact (by decide : ¬ ('n' : Char) = tick) hc.2.1
  · intro hc
    rw [endsTicks, show (fenceOpen ++ [a, b]).reverse =
        b :: a :: ('n' :: 'o' :: 's' :: 'j' :: tick :: tick :: tick :: []) from by
      simp [fenceOpen]] at hc
    simp [ticks3] at hc
    exact (by decide : ¬ ('n' : Char) = tick) hc.2.2
  · simp at h
    omega

/-- When the stripped text starts with the 7-character fence opener, it ends
in three backticks exactly when its 7-character-dropped remainder does, so the
sequenced checks of the code coincide with checks on the stripped text. -/
lemma endsTicks_drop7 (t : Text) (h : t.take 7 = fenceOpen) :
    endsTicks t ↔ endsTicks (t.drop 7) := by
  have ht : t = fenceOpen ++ t.drop 7 := by
    conv_lhs => rw [← List.take_append_drop 7 t]
    rw [h]
  by_cases hr : 3 ≤ (t.drop 7).length
  · have h2 : t.reverse.take 3 = (t.drop 7).reverse.take 3 := by
      conv_lhs => rw [ht]
      exact take3_of_append_ge fenceOpen _ hr
    unfold endsTicks
    rw [h2]
  · push_neg at hr
    exact iff_of_false (by rw [ht]; exact not_endsTicks_fence_append _ (by omega))
      (endsTicks_short _ (by omega))

/-- C2: the response sanitation is exact.  After the whitespace strip: with
neither marker the text is passed through unmodified; with the literal
7-character fence opener exactly the first 7 characters are removed; with a
trailing triple backtick exactly the last 3 characters are removed; with both,
both removals happen. -/
theorem sanitize_exact (s : Text) :
    (¬ (pyStrip s).take 7 = fenceOpen → ¬ endsTicks (pyStrip s) →
        sanitize s = pyStrip s) ∧
    ((pyStrip s).take 7 = fenceOpen → ¬ endsTicks (pyStrip s) →
        sanitize s = (pyStrip s).drop 7) ∧
    (¬ (pyStrip s).take 7 = fenceOpen → endsTicks (pyStrip s) →
        sanitize s = (pyStrip s).take ((pyStrip s).length - 3)) ∧
    ((pyStrip s).take 7 = fenceOpen → endsTicks (pyStrip s) →
        sanitize s = ((pyStrip s).drop 7).take (((pyStrip s).drop 7).length - 3)) := by
  refine ⟨fun h1 h2 => ?_, fun h1 h2 => ?_, fun h1 h2 => ?_, fun h1 h2 => ?_⟩
  · simp [sanitize, h1, h2]
  · have h3 : ¬ endsTicks ((pyStrip s).drop 7) := fun hc => h2 ((endsTicks_drop7 _ h1).mpr hc)
    simp [sanitize, h1, h3]
  · simp [sanitize, h1, h2]
  · have h3 : endsTicks ((pyStrip s).drop 7) := (endsTicks_drop7 _ h1).mp h2
    simp [sanitize, h1, h3]

/-- Witness for `sanitize_exact`: one concrete input per marker combination. -/
theorem sanitize_exact_witness :
    sanitize ("hello".toList) = "hello".toList ∧
    sanitize ("```json[1]".toList) = "[1]".toList ∧
    sanitize ("[1]```".toList) = "[1]".toList ∧
    sanitize ("```json[1]```".toList) = "[1]".toList :=
  ⟨((sanitize_exact _).1 (by decide) (by decide)).trans (by decide),
   ((sanitize_exact _).2.1 (by decide) (by decide)).trans (by decide),
   ((sanitize_exact _).2.2.1 (by decide) (by decide)).trans (by decide),
   ((sanitize_exact _).2.2.2 (by decide) (by decide)).trans (by decide)⟩

/-! ### C7: submitted can only become true with questions present -/

lemma resultsBlock_fst (st : SessionState) : (resultsBlock st).1 = st := by
  unfold resultsBlock
  cases scoreRun st.questions st.selected <;> rfl

lemma displayThen_fst_questions (st : SessionState) (inp : RunInput) :
    (displayThen st inp).1.questions = st.questions := by
  unfold displayThen
  cases hd : (displayLoop st.questions st.selected inp.choices).2 with
  | some e => simp [hd]
  | none =>
    simp only [hd]
    by_cases hc : inp.submitClicked = true
    · simp [hc, resultsBlock_fst]
    · by_cases hs : st.submitted = true <;> simp [hc, hs, resultsBlock_fst]

lemma afterGen_fst_questions (st : SessionState) (inp : RunInput) :
    (afterGen st inp).1.questions = st.questions := by
  unfold afterGen
  by_cases hq : st.questions.isEmpty = true
  · by_cases hs : st.submitted = true <;> simp [hq, hs, resultsBlock_fst]
  · simp [hq, displayThen_fst_questions]

lemma afterGen_of_empty (st : SessionState) (inp : RunInput)
    (hq : st.questions = []) : (afterGen st inp).1 = st := by
  unfold afterGen
  by_cases hs : st.submitted = true <;> simp [hq, hs, resultsBlock_fst]

lemma afterGen_preserves_inv (st : SessionState) (inp : RunInput)
    (h : st.submitted = true → st.questions ≠ []) :
    (afterGen st inp).1.submitted = true → (afterGen st inp).1.questions ≠ [] := by
  intro hsub
  by_cases hq : st.questions = []
  · rw [afterGen_of_empty st inp hq] at hsub ⊢
    exact h hsub
  · rw [afterGen_fst_questions]
    exact hq

lemma generateBlock_cases (st : SessionState) (b : Bool) (url tr : Text)
    (qs : List Question) :
    generateBlock st b url tr qs = (st, true) ∨
    generateBlock st b url tr qs = (st, false) ∨
    (qs ≠ [] ∧ generateBlock st b url tr qs =
      ({ questions := qs, selected := List.replicate qs.length none,
         submitted := false }, false)) := by
  cases b with
  | false => exact Or.inr (Or.inl (by simp [generateBlock]))
  | true =>
    by_cases hu : url.isEmpty = true
    · exact Or.inl (by simp [generateBlock, hu])
    · by_cases ht : tr.isEmpty = true
      · exact Or.inl (by simp [generateBlock, hu, ht])
      · by_cases hqs : qs.isEmpty = true
        · exact Or.inl (by simp [generateBlock, hu, ht, hqs])
        · exact Or.inr (Or.inr ⟨by simpa [List.isEmpty_iff] using hqs,
            by simp [generateBlock, hu, ht, hqs]⟩)

/-- C7: in every reachable session state, `submitted` is true only when the
question list is non-empty: the Submit widget only exists inside the
questions-present branch, a successful generation clears `submitted`, and a
failed generation leaves the state unchanged, so the Submitted state is never
entered from the Empty state. -/
theorem submitted_only_with_questions (st : SessionState) (h : Reachable st) :
    st.submitted = true → st.questions ≠ [] := by
  induction h with
  | init =>
    intro hc
    simp [initState] at hc
  | step st0 inp h0 ih =>
    unfold runMain
    rcases generateBlock_cases st0 inp.generateClicked inp.url inp.transcript inp.fetched
      with hcase | hcase | ⟨hne, hcase⟩
    · rw [hcase]
      simpa using ih
    · rw [hcase]
      simpa using afterGen_preserves_inv st0 inp ih
    · rw [hcase]
      simpa using afterGen_preserves_inv _ inp (fun _ => by simpa using hne)

/-- Witness for `submitted_only_with_questions` at the reachable state
obtained by one successful generation followed by a Submit click (that state
has `submitted = true`). -/
theorem submitted_only_with_questions_witness :
    ((runMain (runMain initState inpG7).1 inpS7).1).questions ≠ [] :=
  submitted_only_with_questions _
    (Reachable.step _ inpS7 (Reachable.step _ inpG7 Reachable.init)) (by decide)

/-! ### C9: rendering fills every unset answer slot -/

lemma idxOf_spec (x : Text) (l : List Text) (hx : x ∈ l) :
    ∃ k, idxOf x l = some k ∧ k < l.length := by
  induction l with
  | nil => simp at hx
  | cons y ys ih =>
    by_cases hxy : y = x
    · exact ⟨0, by simp [idxOf, hxy], by simp⟩
    · rcases List.mem_cons.mp hx with h | h
      · exact absurd h.symm hxy
      · obtain ⟨k, hk1, hk2⟩ := ih h
        refine ⟨k + 1, by simp [idxOf, hxy, hk1], by simp; omega⟩

lemma radioResult_ok (opts : List Text) (cur choice : Option Text)
    (hopts : opts ≠ [])
    (hcur : ∀ s, cur = some s → s.isEmpty = false → s ∈ opts) :
    ∃ t, radioResult opts cur choice = Except.ok (some t) ∧
      (pyTruthy cur = false → choice = none → some t = opts.head?) := by
  by_cases htr : pyTruthy cur = true
  · match cur, htr with
    | some s, htr =>
      have hs : s.isEmpty = false := by simpa [pyTruthy] using htr
      have hmem := hcur s rfl hs
      obtain ⟨k, hk1, hk2⟩ := idxOf_spec s opts hmem
      cases choice with
      | some c =>
        refine ⟨c, ?_, fun hf _ => by rw [htr] at hf; cases hf⟩
        simp [radioResult, radioIndex, htr, hk1]
      | none =>
        refine ⟨opts.get ⟨k, hk2⟩, ?_, fun hf _ => by rw [htr] at hf; cases hf⟩
        simp [radioResult, radioIndex, htr, hk1, List.get?_eq_get hk2]
  · have hf : pyTruthy cur = false := by simpa using htr
    cases choice with
    | some c =>
      refine ⟨c, by simp [radioResult, radioIndex, hf], fun _ hc => by cases hc⟩
    | none =>
      cases opts with
      | nil => exact absurd rfl hopts
      | cons a as =>
        exact ⟨a, by simp [radioResult, radioIndex, hf], fun _ _ => by simp⟩

/-- C9: rendering leaves no answer slot unset.  For a question list whose
options are non-empty and whose truthy stored answers occur among their
question's option texts (as holds for slots the widget itself wrote), the
rendering loop completes without an exception, keeps the slot count, stores
`some` text in every slot, and writes the question's first option text into
every slot that was unset or falsy and that the user did not touch this run —
so an untouched question is subsequently scored as if its first option had
been selected. -/
theorem rendering_fills_slots (qs : List Question) (sel : List (Option Text))
    (ch : Nat → Option Text)
    (hlen : sel.length = qs.length)
    (hopts : ∀ q ∈ qs, q.options ≠ [])
    (hpresent : ∀ i q s, qs.get? i = some q → sel.get? i = some (some s) →
        s.isEmpty = false → s ∈ q.options.map Prod.snd) :
    (displayLoop qs sel ch).2 = none ∧
    (displayLoop qs sel ch).1.length = qs.length ∧
    (∀ i, i < qs.length → ∃ t, (displayLoop qs sel ch).1.get? i = some (some t)) ∧
    (∀ i q s0, qs.get? i = some q → sel.get? i = some s0 → pyTruthy s0 = false →
        ch i = none → (displayLoop qs sel ch).1.get? i = some (firstOption q)) := by
  induction qs generalizing sel ch with
  | nil =>
    cases sel with
    | nil =>
      refine ⟨rfl, rfl, fun i hi => ?_, fun i q s0 h1 _ _ _ => ?_⟩
      · simp at hi
      · simp at h1
    | cons s sel => simp at hlen
  | cons q qs ih =>
    cases sel with
    | nil => simp at hlen
    | cons s sel =>
      have hopts0 : q.options ≠ [] := hopts q (by simp)
      have hoptsmap : q.options.map Prod.snd ≠ [] := by
        simpa [List.map_eq_nil_iff] using hopts0
      obtain ⟨t0, hrr, hdef⟩ := radioResult_ok (q.options.map Prod.snd) s (ch 0)
        hoptsmap (fun s2 hs2 hse => hpresent 0 q s2 (by simp) (by simp [hs2]) hse)
      obtain ⟨ih1, ih2, ih3, ih4⟩ := ih sel (fun n => ch (n + 1))
        (by simpa using hlen) (fun q2 h2 => hopts q2 (by simp [h2]))
        (fun i q2 s2 h1 h2 h3 => hpresent (i + 1) q2 s2 (by simpa using h1)
          (by simpa using h2) h3)
      have hdl : displayLoop (q :: qs) (s :: sel) ch =
          ((some t0) :: (displayLoop qs sel (fun n => ch (n + 1))).1,
           (displayLoop qs sel (fun n => ch (n + 1))).2) := by
        simp [displayLoop, hrr]
      rw [hdl]
      refine ⟨by simpa using ih1, by simpa using ih2, fun i hi => ?_,
        fun i q2 s0 h1 h2 h3 h4 => ?_⟩
      · cases i with
        | zero => exact ⟨t0, by simp⟩
        | succ n =>
          obtain ⟨t, ht⟩ := ih3 n (by simpa using hi)
          exact ⟨t, by simpa using ht⟩
      · cases i with
        | zero =>
          have hq2 : q = q2 := by simpa using h1
          have hs0 : s = s0 := by simpa using h2
          subst hq2
          subst hs0
          have := hdef h3 h4
          simp [firstOption, ← this]
        | succ n =>
          have := ih4 n q2 s0 (by simpa using h1) (by simpa using h2) h3 h4
          simpa using this

/-- Witness for `rendering_fills_slots`: an untouched one-question quiz gets
its unset slot filled with the first option text. -/
theorem rendering_fills_slots_witness :
    (displayLoop [qYes] [none] (fun _ => none)).1.get? 0 = some (firstOption qYes) :=
  (rendering_fills_slots [qYes] [none] (fun _ => none) (by decide) (by decide)
    (by
      intro i q s h1 h2 h3
      cases i with
      | zero => simp at h2
      | succ n => simp at h1)).2.2.2 0 qYes none rfl rfl rfl rfl

end YTQuiz
